import Mathlib

/-
  Verification of the Pterodactyl panel API client (utils/api.py) and the
  chat-command layer that drives it (cogs/*.py).

  The client is embedded shallowly: JSON values become an inductive `Json`
  type, the network becomes an oracle `Net` mapping a `Request` to either a
  lower-level failure (an exception in the HTTP library) or a `Response`
  carrying a status code, a decoded JSON body, and the raw body text.  Each
  client method becomes a Lean function from its arguments and the oracle to
  a result (`Except ApiError _`) paired with the ordered trace of requests
  the method issued.
-/

namespace Ptero

/-- A decoded JSON value (the result of `await r.json()`). -/
inductive Json where
  | null
  | bool (b : Bool)
  | num (n : Int)
  | str (s : String)
  | arr (xs : List Json)
  | obj (fields : List (String × Json))

/-- Lookup of a key in an object's field list (first binding wins, as in a
Python dict built from unique keys). -/
def jFind (fields : List (String × Json)) (key : String) : Option Json :=
  match fields with
  | [] => none
  | (k, v) :: rest => if k = key then some v else jFind rest key

/-- Python `d.get(key)` on a decoded JSON dict: `none` models Python `None`. -/
def pyGet (j : Json) (key : String) : Option Json :=
  match j with
  | Json.obj fields => jFind fields key
  | _ => none

/-- Python `d.get(key, default)`. -/
def pyGetD (j : Json) (key : String) (d : Json) : Json :=
  (pyGet j key).getD d

/-- The client's envelope normalizer: `resp.get("attributes", resp)`. -/
def normalizeAttrs (j : Json) : Json :=
  pyGetD j "attributes" j

/-- Python truthiness of a decoded JSON value. -/
def pyTruthy : Json → Bool
  | Json.null => false
  | Json.bool b => b
  | Json.num n => n != 0
  | Json.str s => s != ""
  | Json.arr xs => !xs.isEmpty
  | Json.obj fields => !fields.isEmpty

/-- Truthiness of the result of a `.get` (Python `None` is falsy). -/
def optTruthy : Option Json → Bool
  | none => false
  | some j => pyTruthy j

/-- Python `f"{value}"` for a decoded JSON value, as used to splice ids into
URLs; only the cases the client exercises matter (ints and strings). -/
def pyStr : Json → String
  | Json.null => "None"
  | Json.bool b => if b then "True" else "False"
  | Json.num n => toString n
  | Json.str s => s
  | Json.arr _ => "[...]"
  | Json.obj _ => "{...}"

/-- The elements iterated by `for x in d.get(key, [])`. -/
def itemsOf (j : Json) (key : String) : List Json :=
  match pyGetD j key (Json.arr []) with
  | Json.arr xs => xs
  | _ => []

/-- HTTP methods the client uses. -/
inductive Method where
  | get
  | post
  | patch
  | delete
deriving DecidableEq, Repr

/-- One HTTP request the client issues: method, full URL, optional JSON
payload (the `json=` argument of the aiohttp call). -/
structure Request where
  method : Method
  url : String
  payload : Option Json

/-- One HTTP response: status code, decoded JSON body (`await r.json()`),
and the raw body text (`await r.text()`). -/
structure Response where
  status : Nat
  body : Json
  text : String

/-- The network oracle: what the panel answers to each request.  An
`Except.error` models a lower-level exception raised by the HTTP library. -/
abbrev Net : Type := Request → Except String Response

/-- How a client method fails: `pteroError` is a raised `PteroError(msg)`;
`netError` is an uncaught lower-level exception propagating to the caller. -/
inductive ApiError where
  | pteroError (msg : String)
  | netError (msg : String)

/-- Result of running one client method: outcome plus the ordered trace of
requests it issued. -/
abbrev ApiResult (α : Type) : Type := Except ApiError α × List Request

/-- Base URL of the panel (`PTERO_PANEL_URL` default, trailing `/` stripped). -/
def base_url : String := "https://panel.example.com"

/-- Python `needle.startswith` check at the list-of-chars level. -/
def startsWithList (needle hay : List Char) : Bool :=
  match needle, hay with
  | [], _ => true
  | _ :: _, [] => false
  | n :: ns, h :: hs => n == h && startsWithList ns hs

/-- Python `needle in hay` substring check at the list-of-chars level. -/
def containsList (needle : List Char) : List Char → Bool
  | [] => startsWithList needle []
  | h :: hs => startsWithList needle (h :: hs) || containsList needle hs

/-- Python `needle in hay` on strings. -/
def strContains (hay needle : String) : Bool :=
  containsList needle.toList hay.toList

/-- Python string slicing `s[:n]` (by code points). -/
def pyTake (s : String) (n : Nat) : String :=
  String.mk (s.toList.take n)

/-- ASCII lower-casing of one character (Python `str.lower` restricted to
the ASCII range the panel data uses). -/
def lowerChar (c : Char) : Char :=
  if 65 ≤ c.toNat ∧ c.toNat ≤ 90 then Char.ofNat (c.toNat + 32) else c

/-- Python `s.lower()`. -/
def strLower (s : String) : String :=
  String.mk (s.toList.map lowerChar)

/-- The string value of a `.get(key, "")` field access that is then treated
as a string by the client (`.lower()` / substring test). -/
def getStrD (a : Json) (key : String) : String :=
  match pyGetD a key (Json.str "") with
  | Json.str s => s
  | _ => ""

/-- Python `value == some_int` where `value` came from a `.get` access. -/
def jsonEqInt (j : Json) (n : Int) : Bool :=
  match j with
  | Json.num m => m == n
  | Json.bool b => (if b then (1 : Int) else 0) == n
  | _ => false

def optEqInt : Option Json → Int → Bool
  | none, _ => false
  | some j, n => jsonEqInt j n

/-- Python `value == some_str` where `value` came from a `.get` access. -/
def jsonEqStr (j : Json) (s : String) : Bool :=
  match j with
  | Json.str t => t == s
  | _ => false

def optEqStr : Option Json → String → Bool
  | none, _ => false
  | some j, s => jsonEqStr j s

/-- String spliced into a URL for an id taken from a JSON body. -/
def optStr : Option Json → String
  | none => "None"
  | some j => pyStr j

/-! ### The client methods of `PteroAPI`, one Lean function each. -/

def getNodeReq (node_id : Int) : Request :=
  ⟨Method.get, base_url ++ "/api/application/nodes/" ++ toString node_id, none⟩

/-- `PteroAPI.get_node`. -/
def get_node (node_id : Int) (net : Net) : ApiResult Json :=
  let req := getNodeReq node_id
  match net req with
  | Except.error e => (Except.error (ApiError.netError e), [req])
  | Except.ok r =>
    if r.status = 200 then (Except.ok (normalizeAttrs r.body), [req])
    else
      (Except.error (ApiError.pteroError
        ("Node " ++ toString node_id ++ " not found (status " ++ toString r.status ++ ")")), [req])

def directEggReq (egg_id : Int) : Request :=
  ⟨Method.get, base_url ++ "/api/application/eggs/" ++ toString egg_id, none⟩

def nestsReq : Request :=
  ⟨Method.get, base_url ++ "/api/application/nests", none⟩

/-- `n.get("attributes", {}).get("id")` for a nest entry. -/
def nestId (n : Json) : Option Json :=
  pyGet (pyGetD n "attributes" (Json.obj [])) "id"

def eggsOfNestUrl (nid : Option Json) : String :=
  base_url ++ "/api/application/nests/" ++ optStr nid ++ "/eggs"

def eggsOfNestReq (nid : Option Json) : Request :=
  ⟨Method.get, eggsOfNestUrl nid, none⟩

/-- The match test of the egg scan:
`egg.get("attributes", {}).get("id") == egg_id or egg.get("id") == egg_id`. -/
def eggMatches (egg : Json) (egg_id : Int) : Bool :=
  optEqInt (pyGet (pyGetD egg "attributes" (Json.obj [])) "id") egg_id
    || optEqInt (pyGet egg "id") egg_id

/-- The inner `for egg in eggs.get("data", [])` loop of `get_egg`. -/
def scanEggs (eggs : List Json) (egg_id : Int) : Option Json :=
  match eggs with
  | [] => none
  | e :: rest =>
    if eggMatches e egg_id then some (pyGetD e "attributes" e)
    else scanEggs rest egg_id

/-- The `for n in nests.get("data", [])` loop of `get_egg`: nests with a
falsy id are skipped without a request; a nest whose eggs-list request
returns non-200 is skipped; the first matching egg is returned. -/
def scanNests (egg_id : Int) (nests : List Json) (net : Net) : ApiResult (Option Json) :=
  match nests with
  | [] => (Except.ok none, [])
  | n :: rest =>
    if optTruthy (nestId n) then
      let req := eggsOfNestReq (nestId n)
      match net req with
      | Except.error e => (Except.error (ApiError.netError e), [req])
      | Except.ok er =>
        if er.status = 200 then
          match scanEggs (itemsOf er.body "data") egg_id with
          | some v => (Except.ok (some v), [req])
          | none =>
            let res := scanNests egg_id rest net
            (res.1, req :: res.2)
        else
          let res := scanNests egg_id rest net
          (res.1, req :: res.2)
    else
      scanNests egg_id rest net

/-- `PteroAPI.get_egg`: direct flat-path attempt (exceptions swallowed,
non-200 falls through), then the nest scan fallback. -/
def get_egg (egg_id : Int) (net : Net) : ApiResult Json :=
  let dreq := directEggReq egg_id
  let direct : Option Json :=
    match net dreq with
    | Except.ok r => if r.status = 200 then some (normalizeAttrs r.body) else none
    | Except.error _ => none
  match direct with
  | some v => (Except.ok v, [dreq])
  | none =>
    match net nestsReq with
    | Except.error e => (Except.error (ApiError.netError e), [dreq, nestsReq])
    | Except.ok r =>
      if r.status = 200 then
        match scanNests egg_id (itemsOf r.body "data") net with
        | (Except.ok (some v), tr) => (Except.ok v, dreq :: nestsReq :: tr)
        | (Except.ok none, tr) =>
          (Except.error (ApiError.pteroError ("Egg " ++ toString egg_id ++ " not found")),
            dreq :: nestsReq :: tr)
        | (Except.error e, tr) => (Except.error e, dreq :: nestsReq :: tr)
      else
        (Except.error (ApiError.pteroError "Unable to fetch nests to validate egg"),
          [dreq, nestsReq])

def listUsersReq (page : Int) : Request :=
  ⟨Method.get, base_url ++ "/api/application/users?page=" ++ toString page, none⟩

/-- `PteroAPI.list_users`. -/
def list_users (page : Int) (net : Net) : ApiResult Json :=
  let req := listUsersReq page
  match net req with
  | Except.error e => (Except.error (ApiError.netError e), [req])
  | Except.ok r =>
    if r.status = 200 then (Except.ok r.body, [req])
    else
      (Except.error (ApiError.pteroError
        ("List users failed (status " ++ toString r.status ++ ")")), [req])

def filterEmailReq (email : String) : Request :=
  ⟨Method.get, base_url ++ "/api/application/users?filter[email]=" ++ email, none⟩

/-- The fallback scan of `find_user_by_email`: first user whose
`attributes.email` equals the query exactly. -/
def scanUsersForEmail (users : List Json) (email : String) : Option Json :=
  match users with
  | [] => none
  | u :: rest =>
    let a := pyGetD u "attributes" (Json.obj [])
    if optEqStr (pyGet a "email") email then some a
    else scanUsersForEmail rest email

/-- The 200-path of `find_user_by_email`: the first entry of `data`,
unwrapped, no email check. -/
def firstUserAttrs (users : List Json) : Option Json :=
  match users with
  | [] => none
  | u :: _ => some (pyGetD u "attributes" u)

/-- `PteroAPI.find_user_by_email`: filtered query; on a non-200 status the
full-list fallback; a lower-level request failure is not caught. -/
def find_user_by_email (email : String) (net : Net) : ApiResult (Option Json) :=
  let req := filterEmailReq email
  match net req with
  | Except.error e => (Except.error (ApiError.netError e), [req])
  | Except.ok r =>
    if r.status = 200 then
      (Except.ok (firstUserAttrs (itemsOf r.body "data")), [req])
    else
      match list_users 1 net with
      | (Except.ok users, tr) =>
        (Except.ok (scanUsersForEmail (itemsOf users "data") email), req :: tr)
      | (Except.error e, tr) => (Except.error e, req :: tr)

/-- The JSON body `PteroAPI.create_user` posts, with the `[:191]` slices. -/
def createUserPayload (username email first_name last_name password : String) : Json :=
  Json.obj [("username", Json.str (pyTake username 191)),
            ("email", Json.str email),
            ("first_name", Json.str (pyTake first_name 191)),
            ("last_name", Json.str (pyTake last_name 191)),
            ("password", Json.str password)]

def createUserReq (username email first_name last_name password : String) : Request :=
  ⟨Method.post, base_url ++ "/api/application/users",
    some (createUserPayload username email first_name last_name password)⟩

/-- `PteroAPI.create_user`. -/
def create_user (username email first_name last_name password : String) (net : Net) :
    ApiResult Json :=
  let req := createUserReq username email first_name last_name password
  match net req with
  | Except.error e => (Except.error (ApiError.netError e), [req])
  | Except.ok r =>
    if r.status = 200 ∨ r.status = 201 then (Except.ok (normalizeAttrs r.body), [req])
    else
      (Except.error (ApiError.pteroError
        ("Create user failed: status " ++ toString r.status ++ ": " ++ r.text)), [req])

def deleteUserReq (user_id : Int) : Request :=
  ⟨Method.delete, base_url ++ "/api/application/users/" ++ toString user_id, none⟩

/-- `PteroAPI.delete_user`. -/
def delete_user (user_id : Int) (net : Net) : ApiResult Bool :=
  let req := deleteUserReq user_id
  match net req with
  | Except.error e => (Except.error (ApiError.netError e), [req])
  | Except.ok r =>
    if r.status = 200 ∨ r.status = 204 then (Except.ok true, [req])
    else
      (Except.error (ApiError.pteroError
        ("Delete user failed: status " ++ toString r.status ++ ": " ++ r.text)), [req])

def changePasswordReq (user_id : Int) (password : String) : Request :=
  ⟨Method.post, base_url ++ "/api/application/users/" ++ toString user_id ++ "/reset-password",
    some (Json.obj [("password", Json.str password),
                    ("password_confirmation", Json.str password)])⟩

/-- `PteroAPI.change_user_password`. -/
def change_user_password (user_id : Int) (password : String) (net : Net) : ApiResult Bool :=
  let req := changePasswordReq user_id password
  match net req with
  | Except.error e => (Except.error (ApiError.netError e), [req])
  | Except.ok r =>
    if r.status = 200 ∨ r.status = 204 then (Except.ok true, [req])
    else
      (Except.error (ApiError.pteroError
        ("Change password failed: status " ++ toString r.status ++ ": " ++ r.text)), [req])

/-- The JSON body `PteroAPI.create_server` posts. -/
def createServerPayload (name : String) (user_id egg_id node_id memory cpu disk : Int)
    (version : String) : Json :=
  Json.obj [("name", Json.str (pyTake name 191)),
            ("user", Json.num user_id),
            ("egg", Json.num egg_id),
            ("docker_image", Json.str version),
            ("startup", Json.null),
            ("environment", Json.obj []),
            ("limits", Json.obj [("memory", Json.num memory), ("swap", Json.num 0),
                                 ("disk", Json.num disk), ("io", Json.num 500),
                                 ("cpu", Json.num cpu)]),
            ("feature_limits", Json.obj []),
            ("node", Json.num node_id),
            ("allocation", Json.obj [])]

def createServerReq (name : String) (user_id egg_id node_id memory cpu disk : Int)
    (version : String) : Request :=
  ⟨Method.post, base_url ++ "/api/application/servers",
    some (createServerPayload name user_id egg_id node_id memory cpu disk version)⟩

/-- `PteroAPI.create_server`. -/
def create_server (name : String) (user_id egg_id node_id memory cpu disk : Int)
    (version : String) (net : Net) : ApiResult Json :=
  let req := createServerReq name user_id egg_id node_id memory cpu disk version
  match net req with
  | Except.error e => (Except.error (ApiError.netError e), [req])
  | Except.ok r =>
    if r.status = 200 ∨ r.status = 201 then (Except.ok (normalizeAttrs r.body), [req])
    else
      (Except.error (ApiError.pteroError
        ("Create server failed: status " ++ toString r.status ++ ": " ++ r.text)), [req])

def deleteServerReq (server_id : String) : Request :=
  ⟨Method.delete, base_url ++ "/api/application/servers/" ++ server_id, none⟩

/-- `PteroAPI.delete_server`. -/
def delete_server (server_id : String) (net : Net) : ApiResult Bool :=
  let req := deleteServerReq server_id
  match net req with
  | Except.error e => (Except.error (ApiError.netError e), [req])
  | Except.ok r =>
    if r.status = 200 ∨ r.status = 204 then (Except.ok true, [req])
    else
      (Except.error (ApiError.pteroError
        ("Delete server failed: status " ++ toString r.status ++ ": " ++ r.text)), [req])

def suspendReq (server_id : String) : Request :=
  ⟨Method.post, base_url ++ "/api/application/servers/" ++ server_id ++ "/suspend", none⟩

/-- `PteroAPI.suspend_server`. -/
def suspend_server (server_id : String) (net : Net) : ApiResult Bool :=
  let req := suspendReq server_id
  match net req with
  | Except.error e => (Except.error (ApiError.netError e), [req])
  | Except.ok r =>
    if r.status = 200 ∨ r.status = 204 then (Except.ok true, [req])
    else
      (Except.error (ApiError.pteroError
        ("Suspend failed: status " ++ toString r.status ++ ": " ++ r.text)), [req])

def unsuspendReq (server_id : String) : Request :=
  ⟨Method.post, base_url ++ "/api/application/servers/" ++ server_id ++ "/unsuspend", none⟩

/-- `PteroAPI.unsuspend_server`. -/
def unsuspend_server (server_id : String) (net : Net) : ApiResult Bool :=
  let req := unsuspendReq server_id
  match net req with
  | Except.error e => (Except.error (ApiError.netError e), [req])
  | Except.ok r =>
    if r.status = 200 ∨ r.status = 204 then (Except.ok true, [req])
    else
      (Except.error (ApiError.pteroError
        ("Unsuspend failed: status " ++ toString r.status ++ ": " ++ r.text)), [req])

def getServerReq (server_id : String) : Request :=
  ⟨Method.get, base_url ++ "/api/application/servers/" ++ server_id, none⟩

/-- `PteroAPI.get_server`: on 200 the raw decoded body is returned as-is
(no `attributes` unwrapping in the source). -/
def get_server (server_id : String) (net : Net) : ApiResult Json :=
  let req := getServerReq server_id
  match net req with
  | Except.error e => (Except.error (ApiError.netError e), [req])
  | Except.ok r =>
    if r.status = 200 then (Except.ok r.body, [req])
    else
      (Except.error (ApiError.pteroError
        ("Get server failed: status " ++ toString r.status ++ ": " ++ r.text)), [req])

def listServersReq (page : Int) : Request :=
  ⟨Method.get, base_url ++ "/api/application/servers?page=" ++ toString page, none⟩

/-- `PteroAPI.list_servers`. -/
def list_servers (page : Int) (net : Net) : ApiResult Json :=
  let req := listServersReq page
  match net req with
  | Except.error e => (Except.error (ApiError.netError e), [req])
  | Except.ok r =>
    if r.status = 200 then (Except.ok r.body, [req])
    else
      (Except.error (ApiError.pteroError
        ("List servers failed: status " ++ toString r.status)), [req])

/-- The per-item test of `search_servers`. -/
def serverMatch (query : String) (item : Json) : Bool :=
  let a := pyGetD item "attributes" (Json.obj [])
  strContains (strLower (getStrD a "name")) (strLower query)
    || strContains (strLower (getStrD a "identifier")) (strLower query)

/-- `PteroAPI.search_servers`: page 1 only, substring filter. -/
def search_servers (query : String) (net : Net) : ApiResult (List Json) :=
  match list_servers 1 net with
  | (Except.ok pages, tr) =>
    (Except.ok (((itemsOf pages "data").filter (serverMatch query)).map
      (fun item => pyGetD item "attributes" (Json.obj []))), tr)
  | (Except.error e, tr) => (Except.error e, tr)

def setResourcesReq (server_id : String) (memory cpu disk : Int) : Request :=
  ⟨Method.patch, base_url ++ "/api/application/servers/" ++ server_id ++ "/build",
    some (Json.obj [("memory", Json.num memory), ("swap", Json.num 0),
                    ("disk", Json.num disk), ("io", Json.num 500),
                    ("cpu", Json.num cpu)])⟩

/-- `PteroAPI.set_server_resources`. -/
def set_server_resources (server_id : String) (memory cpu disk : Int) (net : Net) :
    ApiResult Bool :=
  let req := setResourcesReq server_id memory cpu disk
  match net req with
  | Except.error e => (Except.error (ApiError.netError e), [req])
  | Except.ok r =>
    if r.status = 200 ∨ r.status = 204 then (Except.ok true, [req])
    else
      (Except.error (ApiError.pteroError
        ("Set resources failed: status " ++ toString r.status ++ ": " ++ r.text)), [req])

def listNodesReq : Request :=
  ⟨Method.get, base_url ++ "/api/application/nodes", none⟩

/-- `PteroAPI.list_nodes`: note the fixed failure message, which does not
mention the status code. -/
def list_nodes (net : Net) : ApiResult (List Json) :=
  match net listNodesReq with
  | Except.error e => (Except.error (ApiError.netError e), [listNodesReq])
  | Except.ok r =>
    if r.status = 200 then
      (Except.ok ((itemsOf r.body "data").map (fun d => pyGetD d "attributes" d)),
        [listNodesReq])
    else
      (Except.error (ApiError.pteroError "Failed to list nodes"), [listNodesReq])

/-- The nested egg-collecting loop of `list_eggs` (no falsy-id skip here:
a missing nest id is spliced into the URL as `None`). -/
def collectEggs (nests : List Json) (net : Net) : ApiResult (List Json) :=
  match nests with
  | [] => (Except.ok [], [])
  | n :: rest =>
    let req := eggsOfNestReq (nestId n)
    match net req with
    | Except.error e => (Except.error (ApiError.netError e), [req])
    | Except.ok er =>
      if er.status = 200 then
        match collectEggs rest net with
        | (Except.ok more, tr) =>
          (Except.ok ((itemsOf er.body "data").map (fun e => pyGetD e "attributes" e) ++ more),
            req :: tr)
        | (Except.error e2, tr) => (Except.error e2, req :: tr)
      else
        let res := collectEggs rest net
        (res.1, req :: res.2)

/-- `PteroAPI.list_eggs`: note the fixed failure message on a non-200
nests response, which does not mention the status code. -/
def list_eggs (net : Net) : ApiResult (List Json) :=
  match net nestsReq with
  | Except.error e => (Except.error (ApiError.netError e), [nestsReq])
  | Except.ok r =>
    if r.status = 200 then
      match collectEggs (itemsOf r.body "data") net with
      | (res, tr) => (res, nestsReq :: tr)
    else
      (Except.error (ApiError.pteroError "Failed to fetch nests/eggs"), [nestsReq])

/-- `PteroAPI.panel_status`: a probe that never raises on a bad status. -/
def panel_status (net : Net) : ApiResult String :=
  let req : Request := ⟨Method.get, base_url ++ "/api/application", none⟩
  match net req with
  | Except.error e => (Except.error (ApiError.netError e), [req])
  | Except.ok r =>
    if r.status = 200 then (Except.ok "OK", [req])
    else (Except.ok ("Unclear (status " ++ toString r.status ++ ")"), [req])

def listBackupsReq (server_id : String) : Request :=
  ⟨Method.get, base_url ++ "/api/application/servers/" ++ server_id ++ "/backups", none⟩

/-- `PteroAPI.list_backups`. -/
def list_backups (server_id : String) (net : Net) : ApiResult Json :=
  let req := listBackupsReq server_id
  match net req with
  | Except.error e => (Except.error (ApiError.netError e), [req])
  | Except.ok r =>
    if r.status = 200 then (Except.ok (pyGetD r.body "data" (Json.arr [])), [req])
    else
      (Except.error (ApiError.pteroError
        ("List backups failed: status " ++ toString r.status)), [req])

/-- The per-item test of `search_users`. -/
def userMatch (query : String) (u : Json) : Bool :=
  let a := pyGetD u "attributes" (Json.obj [])
  strContains (strLower (getStrD a "username")) (strLower query)
    || strContains (strLower (getStrD a "email")) (strLower query)

/-- `PteroAPI.search_users`: page 1 only, substring filter. -/
def search_users (query : String) (net : Net) : ApiResult (List Json) :=
  match list_users 1 net with
  | (Except.ok users, tr) =>
    (Except.ok (((itemsOf users "data").filter (userMatch query)).map
      (fun u => pyGetD u "attributes" (Json.obj []))), tr)
  | (Except.error e, tr) => (Except.error e, tr)

/-! ### Password generation (`PteroAPI.generate_password`)

`secrets.token_urlsafe(length)` draws `length` bytes from the OS CSPRNG and
returns their URL-safe base64 encoding with the `=` padding stripped; the
client then slices the result to `length` characters.  The random byte
draw is the only effectful part, so it becomes an explicit `entropy`
parameter; everything downstream of it is pure and modelled exactly. -/

/-- The URL-safe base64 alphabet, indexed 0‥63. -/
def b64urlChar (n : Nat) : Char :=
  if n < 26 then Char.ofNat (65 + n)
  else if n < 52 then Char.ofNat (97 + (n - 26))
  else if n < 62 then Char.ofNat (48 + (n - 52))
  else if n = 62 then '-'
  else '_'

/-- URL-safe base64 encoding of a byte list, padding stripped (the
behavior of `base64.urlsafe_b64encode(b).rstrip(b"=")`). -/
def b64encode : List Nat → List Char
  | [] => []
  | [b0] => [b64urlChar (b0 / 4), b64urlChar (b0 % 4 * 16)]
  | [b0, b1] =>
    [b64urlChar (b0 / 4), b64urlChar (b0 % 4 * 16 + b1 / 16), b64urlChar (b1 % 16 * 4)]
  | b0 :: b1 :: b2 :: rest =>
    b64urlChar (b0 / 4) :: b64urlChar (b0 % 4 * 16 + b1 / 16) ::
      b64urlChar (b1 % 16 * 4 + b2 / 64) :: b64urlChar (b2 % 64) :: b64encode rest

/-- `secrets.token_urlsafe` applied to the drawn bytes. -/
def token_urlsafe (entropy : List Nat) : String :=
  String.mk (b64encode entropy)

/-- `PteroAPI.generate_password`: `secrets.token_urlsafe(length)[:length]`,
with the CSPRNG byte draw (`length` bytes) made an explicit argument. -/
def generate_password (entropy : List Nat) (length : Nat) : String :=
  pyTake (token_urlsafe entropy) length

/-- Membership in the URL-safe base64 alphabet. -/
def isUrlSafeChar (c : Char) : Bool :=
  (65 ≤ c.toNat && c.toNat ≤ 90) || (97 ≤ c.toNat && c.toNat ≤ 122)
    || (48 ≤ c.toNat && c.toNat ≤ 57) || c == '-' || c == '_'

/-- Index of a character in the URL-safe base64 alphabet (a left inverse
of `b64urlChar` below 64). -/
def b64val (c : Char) : Nat :=
  if 65 ≤ c.toNat ∧ c.toNat ≤ 90 then c.toNat - 65
  else if 97 ≤ c.toNat ∧ c.toNat ≤ 122 then c.toNat - 97 + 26
  else if 48 ≤ c.toNat ∧ c.toNat ≤ 57 then c.toNat - 48 + 52
  else if c = '-' then 62
  else 63

/-! ### The chat-command layer (cogs) -/

/-- The synthetic panel email `ServersCog.createserver` derives from a chat
identity: `f"discord-{user.id}@local"`. -/
def panel_user_email (user_id : Nat) : String :=
  "discord-" ++ toString user_id ++ "@local"

/-- The methods the `PteroAPI` class in `utils/api.py` defines. -/
def pteroApiMethods : List String :=
  ["generate_password", "get_node", "get_egg", "find_user_by_email", "create_user",
   "list_users", "delete_user", "change_user_password", "create_server", "delete_server",
   "suspend_server", "unsuspend_server", "get_server", "list_servers", "search_servers",
   "set_server_resources", "list_nodes", "list_eggs", "panel_status", "list_backups",
   "search_users"]

/-- The methods `cogs/panel.py` invokes on its `self.ptero` client
(`PanelCog.nodes`, `.eggs`, `.panel_status`, `.maintenance_on`,
`.maintenance_off`, `.backup_list`, and the `manage` select menu). -/
def panelCogPteroCalls : List String :=
  ["list_nodes", "list_eggs", "panel_status", "maintenance_on", "maintenance_off",
   "list_backups"]

/-! ### Claim-level predicates and concrete test networks -/

/-- The single-resource normalization contract of the spec, for one
operation: a success body carrying an `attributes` field yields exactly
that field's contents; a success body without it comes back unchanged. -/
def opNormalizes (run : Net → ApiResult Json) (req : Request) (succ : List Nat) : Prop :=
  (∀ net s t fields a, s ∈ succ → jFind fields "attributes" = some a →
      net req = Except.ok ⟨s, Json.obj fields, t⟩ → (run net).1 = Except.ok a)
    ∧ (∀ net s t fields, s ∈ succ → jFind fields "attributes" = none →
      net req = Except.ok ⟨s, Json.obj fields, t⟩ →
        (run net).1 = Except.ok (Json.obj fields))

/-- The operation hands the raw 200 body back unchanged, envelope or not. -/
def opRawBody (run : Net → ApiResult Json) (req : Request) : Prop :=
  ∀ net t body, net req = Except.ok ⟨200, body, t⟩ → (run net).1 = Except.ok body

/-- The error contract of the spec for one operation: any status outside
the success set raises a `PteroError` whose message contains the status
code's decimal form. -/
def failsWithStatus {α : Type} (run : Net → ApiResult α) (req : Request)
    (succ : List Nat) : Prop :=
  ∀ net s body t, s ∉ succ → net req = Except.ok ⟨s, body, t⟩ →
    ∃ msg, (run net).1 = Except.error (ApiError.pteroError msg)
      ∧ strContains msg (toString s) = true

/-- The direct flat-path egg fetch failed: non-200 status or a raised
request exception. -/
def directFailsB (net : Net) (egg_id : Int) : Bool :=
  match net (directEggReq egg_id) with
  | Except.ok r => r.status != 200
  | Except.error _ => true

/-- Shorthand for a successful response with empty body text. -/
def respOf (status : Nat) (body : Json) : Except String Response :=
  Except.ok ⟨status, body, ""⟩

/-- A list page whose `data` is the given entries. -/
def pageOf (entries : List Json) : Json :=
  Json.obj [("data", Json.arr entries)]

/-- A nest entry with the given id. -/
def nestEntry (id : Int) : Json :=
  Json.obj [("attributes", Json.obj [("id", Json.num id)])]

/-- An egg entry with the given id. -/
def eggEntry (id : Int) : Json :=
  Json.obj [("attributes", Json.obj [("id", Json.num id)])]

/-- A server entry with the given name and identifier. -/
def srvEntry (name ident : String) : Json :=
  Json.obj [("attributes", Json.obj [("name", Json.str name), ("identifier", Json.str ident)])]

/-- A user entry with the given username and email. -/
def userEntry (username email : String) : Json :=
  Json.obj [("attributes", Json.obj [("username", Json.str username), ("email", Json.str email)])]

/-- Network where node 7 answers 200 with an `attributes` envelope. -/
def netNode7 : Net := fun req =>
  if req.url = base_url ++ "/api/application/nodes/7" then
    respOf 200 (Json.obj [("attributes", Json.obj [("id", Json.num 7), ("name", Json.str "n1")])])
  else Except.error "unreachable"

/-- Network where server `5` answers 200 with an `attributes` envelope:
used to observe that `get_server` does not unwrap it. -/
def netSrv5 : Net := fun req =>
  if req.url = base_url ++ "/api/application/servers/5" then
    respOf 200 (Json.obj [("attributes", Json.obj [("id", Json.num 7)])])
  else Except.error "unreachable"

/-- Network where the direct egg path answers 404 and the nest scan finds
egg 5 in the second nest. -/
def netEggScan : Net := fun req =>
  if req.url = base_url ++ "/api/application/eggs/5" then
    respOf 404 Json.null
  else if req.url = base_url ++ "/api/application/nests" then
    respOf 200 (pageOf [nestEntry 1, nestEntry 2])
  else if req.url = base_url ++ "/api/application/nests/1/eggs" then
    respOf 200 (pageOf [eggEntry 9])
  else if req.url = base_url ++ "/api/application/nests/2/eggs" then
    respOf 200 (pageOf [eggEntry 5])
  else Except.error "unreachable"

/-- The per-nest egg lists `netEggScan` serves. -/
def eggListsOf (n : Json) : List Json :=
  if optEqInt ((nestId n).getD Json.null) 1 then [eggEntry 9] else [eggEntry 5]

/-- Network where the direct egg path answers 200 (nest data also present,
to show it is never consulted). -/
def netEggDirect : Net := fun req =>
  if req.url = base_url ++ "/api/application/eggs/5" then
    respOf 200 (Json.obj [("attributes", Json.obj [("id", Json.num 5)])])
  else if req.url = base_url ++ "/api/application/nests" then
    respOf 200 (pageOf [nestEntry 1])
  else Except.error "unreachable"

/-- Network where the filtered user query raises a request-level error and
the full user list would be available. -/
def netFilterBoom : Net := fun req =>
  if req.url = base_url ++ "/api/application/users?filter[email]=a@b" then
    Except.error "connection lost"
  else respOf 200 (pageOf [userEntry "u" "a@b"])

/-- Network where the filtered user query answers 500 and the first user
page contains an exact match in second position. -/
def netFilter500 : Net := fun req =>
  if req.url = base_url ++ "/api/application/users?filter[email]=u@v" then
    respOf 500 Json.null
  else if req.url = base_url ++ "/api/application/users?page=1" then
    respOf 200 (pageOf [userEntry "alice" "x@y", userEntry "bob" "u@v"])
  else Except.error "unreachable"

/-- Network where the filtered user query answers 200 with a first entry
whose email differs from the queried one. -/
def netFilterWrong : Net := fun req =>
  if req.url = base_url ++ "/api/application/users?filter[email]=discord-1@local" then
    respOf 200 (pageOf [userEntry "someone" "other@x"])
  else Except.error "unreachable"

/-- Network answering every request with status 500 and body text `oops`. -/
def net500 : Net := fun _ =>
  Except.ok ⟨500, Json.obj [], "oops"⟩

/-- Network with one first page of servers: `Survival` and `Creative`. -/
def netSearchSrv : Net := fun req =>
  if req.url = base_url ++ "/api/application/servers?page=1" then
    respOf 200 (pageOf [srvEntry "Survival" "abc1", srvEntry "Creative" "abc2"])
  else Except.error "unreachable"

/-- Network with one first page of users. -/
def netSearchUsr : Net := fun req =>
  if req.url = base_url ++ "/api/application/users?page=1" then
    respOf 200 (pageOf [userEntry "SurvivalFan" "fan@x", userEntry "builder" "b@x"])
  else Except.error "unreachable"

/-- The panel serves nest `n`: its id is truthy and its eggs-list endpoint
answers 200 with the egg list `E n`. -/
def nestServed (net : Net) (E : Json → List Json) (n : Json) : Prop :=
  optTruthy (nestId n) = true
    ∧ net (eggsOfNestReq (nestId n)) = Except.ok ⟨200, pageOf (E n), ""⟩

/-! ## Basic lemmas about the normalizer and substring search -/

theorem normalizeAttrs_find_some {fields : List (String × Json)} {a : Json}
    (h : jFind fields "attributes" = some a) :
    normalizeAttrs (Json.obj fields) = a := by
  simp [normalizeAttrs, pyGetD, pyGet, h]

theorem normalizeAttrs_find_none {fields : List (String × Json)}
    (h : jFind fields "attributes" = none) :
    normalizeAttrs (Json.obj fields) = Json.obj fields := by
  simp [normalizeAttrs, pyGetD, pyGet, h]

theorem startsWithList_self_append (m s : List Char) :
    startsWithList m (m ++ s) = true := by
  induction m with
  | nil => rfl
  | cons c cs ih => simp [startsWithList, ih]

theorem containsList_of_self (m s : List Char) :
    containsList m (m ++ s) = true := by
  cases h : m ++ s with
  | nil => simp [containsList, ← h, startsWithList_self_append]
  | cons c cs => simp [containsList, ← h, startsWithList_self_append]

theorem containsList_mid (p m s : List Char) :
    containsList m (p ++ m ++ s) = true := by
  induction p with
  | nil => simpa using containsList_of_self m s
  | cons c cs ih =>
    simp only [containsList, List.cons_append, Bool.or_eq_true]
    right
    simpa using ih

theorem strContains_mid (pre mid suf : String) :
    strContains (pre ++ mid ++ suf) mid = true := by
  have h : (pre ++ mid ++ suf).toList = pre.toList ++ mid.toList ++ suf.toList := by
    simp [String.toList, String.data_append]
  rw [strContains, h]
  exact containsList_mid pre.toList mid.toList suf.toList

/-! ## C9 -/

/-- C9: the synthetic email `ServersCog.createserver` derives for a chat
identity is exactly `discord-<id>@local`; in particular id `12345` maps to
`discord-12345@local`, and the mapping is a function of the id alone. -/
theorem createserver_synthetic_email :
    (∀ user_id : Nat, panel_user_email user_id = "discord-" ++ toString user_id ++ "@local")
      ∧ panel_user_email 12345 = "discord-12345@local" :=
  ⟨fun _ => rfl, by decide⟩

/-! ## C5 -/

/-- C5 (code bug): `cogs/panel.py` invokes `maintenance_on` and
`maintenance_off` on the `PteroAPI` client, but `utils/api.py` defines no
such methods, so the maintenance commands cannot succeed as specified. -/
theorem maintenance_methods_missing :
    ("maintenance_on" ∈ panelCogPteroCalls ∧ "maintenance_off" ∈ panelCogPteroCalls)
      ∧ ("maintenance_on" ∉ pteroApiMethods ∧ "maintenance_off" ∉ pteroApiMethods) := by
  decide

/-! ## C7 -/

/-- C7: the create-user payload carries the username, first-name and
last-name fields sliced to 191 characters, so every submitted value has
length at most 191; a 250-character input is cut to exactly 191. -/
theorem create_user_truncates_fields :
    ∀ username email first_name last_name password netv,
      (create_user username email first_name last_name password netv).2 =
          [⟨Method.post, base_url ++ "/api/application/users",
            some (Json.obj [("username", Json.str (pyTake username 191)),
                            ("email", Json.str email),
                            ("first_name", Json.str (pyTake first_name 191)),
                            ("last_name", Json.str (pyTake last_name 191)),
                            ("password", Json.str password)])⟩]
        ∧ (pyTake username 191).length ≤ 191
        ∧ (pyTake first_name 191).length ≤ 191
        ∧ (pyTake last_name 191).length ≤ 191
        ∧ (pyTake (String.mk (List.replicate 250 'a')) 191).length = 191 := by
  intro username email first_name last_name password netv
  have hlen : ∀ s : String, (pyTake s 191).length ≤ 191 := by
    intro s
    show (s.toList.take 191).length ≤ 191
    exact List.length_take_le 191 s.toList
  refine ⟨?_, hlen username, hlen first_name, hlen last_name, ?_⟩
  · show (create_user username email first_name last_name password netv).2 = _
    simp only [create_user]
    cases netv (createUserReq username email first_name last_name password) with
    | error e => simp [createUserReq, createUserPayload]
    | ok r =>
      by_cases h : r.status = 200 ∨ r.status = 201 <;>
        simp [h, createUserReq, createUserPayload]
  · show ((String.mk (List.replicate 250 'a')).toList.take 191).length = 191
    have h : (String.mk (List.replicate 250 'a')).toList = List.replicate 250 'a' := rfl
    rw [h, List.length_take, List.length_replicate]
    decide

/-! ## C10 -/

/-- C10: on a 200 answer from the filtered user query,
`find_user_by_email` returns the attributes of the first `data` entry
without checking its email (as `netFilterWrong` shows concretely), and
`none` when `data` is empty; no further request is issued. -/
theorem find_user_filtered_200_first_entry :
    (∀ net email body u us t,
        net (filterEmailReq email) = Except.ok ⟨200, body, t⟩ →
        itemsOf body "data" = u :: us →
        (find_user_by_email email net).1 = Except.ok (some (pyGetD u "attributes" u))
          ∧ (find_user_by_email email net).2 = [filterEmailReq email])
    ∧ (∀ net email body t,
        net (filterEmailReq email) = Except.ok ⟨200, body, t⟩ →
        itemsOf body "data" = [] →
        (find_user_by_email email net).1 = Except.ok none
          ∧ (find_user_by_email email net).2 = [filterEmailReq email])
    ∧ (find_user_by_email "discord-1@local" netFilterWrong).1 =
        Except.ok (some (Json.obj [("username", Json.str "someone"),
                                   ("email", Json.str "other@x")])) := by
  refine ⟨?_, ?_, ?_⟩
  · intro net email body u us t hnet hdata
    constructor
    · show (find_user_by_email email net).1 = _
      simp only [find_user_by_email, hnet]
      simp [hdata, firstUserAttrs]
    · show (find_user_by_email email net).2 = _
      simp only [find_user_by_email, hnet]
      simp
  · intro net email body t hnet hdata
    constructor
    · show (find_user_by_email email net).1 = _
      simp only [find_user_by_email, hnet]
      simp [hdata, firstUserAttrs]
    · show (find_user_by_email email net).2 = _
      simp only [find_user_by_email, hnet]
      simp
  · rfl

/-- Witness for C10: over `netFilterWrong` the 200 path issues exactly the
one filtered request. -/
theorem find_user_filtered_200_witness :
    (find_user_by_email "discord-1@local" netFilterWrong).2 =
      [filterEmailReq "discord-1@local"] :=
  (find_user_filtered_200_first_entry.1 netFilterWrong "discord-1@local"
    (pageOf [userEntry "someone" "other@x"]) (userEntry "someone" "other@x") [] ""
    rfl rfl).2

/-! ## C1 -/

/-- C1 (counterexample): `get_server` returns a 200 body that carries an
`attributes` envelope unchanged instead of unwrapping it, so the uniform
normalization claim fails for `get_server`. -/
theorem get_server_skips_normalization :
    (get_server "5" netSrv5).1 =
        Except.ok (Json.obj [("attributes", Json.obj [("id", Json.num 7)])])
      ∧ (get_server "5" netSrv5).1 ≠ Except.ok (Json.obj [("id", Json.num 7)]) := by
  have h1 : (get_server "5" netSrv5).1 =
      Except.ok (Json.obj [("attributes", Json.obj [("id", Json.num 7)])]) := rfl
  refine ⟨h1, ?_⟩
  rw [h1]
  intro h
  injection h with h2
  simp at h2

/-- C1 (amended): `get_node`, the direct path of `get_egg`, `create_user`
and `create_server` return the `attributes` field of a success body when
present and the raw body otherwise; `get_server` returns the raw 200 body
unchanged in both cases. -/
theorem single_fetch_normalization :
    (∀ node_id, opNormalizes (get_node node_id) (getNodeReq node_id) [200])
      ∧ (∀ egg_id, opNormalizes (get_egg egg_id) (directEggReq egg_id) [200])
      ∧ (∀ u e f l p,
          opNormalizes (create_user u e f l p) (createUserReq u e f l p) [200, 201])
      ∧ (∀ nm uid eid nid mem cpu dsk v,
          opNormalizes (create_server nm uid eid nid mem cpu dsk v)
            (createServerReq nm uid eid nid mem cpu dsk v) [200, 201])
      ∧ (∀ sid, opRawBody (get_server sid) (getServerReq sid)) := by
  refine ⟨?_, ?_, ?_, ?_, ?_⟩
  · intro node_id
    constructor
    · intro net s t fields a hs hfind hnet
      simp only [List.mem_singleton] at hs
      subst hs
      simp [get_node, hnet, normalizeAttrs_find_some hfind]
    · intro net s t fields hs hfind hnet
      simp only [List.mem_singleton] at hs
      subst hs
      simp [get_node, hnet, normalizeAttrs_find_none hfind]
  · intro egg_id
    constructor
    · intro net s t fields a hs hfind hnet
      simp only [List.mem_singleton] at hs
      subst hs
      simp [get_egg, hnet, normalizeAttrs_find_some hfind]
    · intro net s t fields hs hfind hnet
      simp only [List.mem_singleton] at hs
      subst hs
      simp [get_egg, hnet, normalizeAttrs_find_none hfind]
  · intro u e f l p
    constructor
    · intro net s t fields a hs hfind hnet
      simp only [List.mem_cons, List.mem_singleton, List.not_mem_nil, or_false] at hs
      rcases hs with rfl | rfl <;>
        simp [create_user, hnet, normalizeAttrs_find_some hfind]
    · intro net s t fields hs hfind hnet
      simp only [List.mem_cons, List.mem_singleton, List.not_mem_nil, or_false] at hs
      rcases hs with rfl | rfl <;>
        simp [create_user, hnet, normalizeAttrs_find_none hfind]
  · intro nm uid eid nid mem cpu dsk v
    constructor
    · intro net s t fields a hs hfind hnet
      simp only [List.mem_cons, List.mem_singleton, List.not_mem_nil, or_false] at hs
      rcases hs with rfl | rfl <;>
        simp [create_server, hnet, normalizeAttrs_find_some hfind]
    · intro net s t fields hs hfind hnet
      simp only [List.mem_cons, List.mem_singleton, List.not_mem_nil, or_false] at hs
      rcases hs with rfl | rfl <;>
        simp [create_server, hnet, normalizeAttrs_find_none hfind]
  · intro sid net t body hnet
    simp [get_server, hnet]

/-- Witness for the amended C1 theorem at concrete networks: node 7 comes
back unwrapped, server 5 keeps its envelope. -/
theorem single_fetch_normalization_witness :
    (get_node 7 netNode7).1 =
        Except.ok (Json.obj [("id", Json.num 7), ("name", Json.str "n1")])
      ∧ (get_server "5" netSrv5).1 =
          Except.ok (Json.obj [("attributes", Json.obj [("id", Json.num 7)])]) := by
  constructor
  · exact (single_fetch_normalization.1 7).1 netNode7 200 ""
      [("attributes", Json.obj [("id", Json.num 7), ("name", Json.str "n1")])]
      (Json.obj [("id", Json.num 7), ("name", Json.str "n1")])
      (by simp) rfl rfl
  · exact single_fetch_normalization.2.2.2.2 "5" netSrv5 ""
      (Json.obj [("attributes", Json.obj [("id", Json.num 7)])]) rfl

/-! ## C3 -/

/-- C3 (counterexample): a lower-level failure of the filtered query is not
swallowed by `find_user_by_email`: the exception propagates, no fallback
request is issued, and the full user list `netFilterBoom` serves is never
consulted. -/
theorem find_user_netfail_propagates :
    find_user_by_email "a@b" netFilterBoom =
      (Except.error (ApiError.netError "connection lost"), [filterEmailReq "a@b"]) := rfl

theorem list_users_trace (page : Int) (net : Net) :
    (list_users page net).2 = [listUsersReq page] := by
  simp only [list_users]
  cases net (listUsersReq page) with
  | error e => rfl
  | ok r => by_cases h : r.status = 200 <;> simp [h]

/-- C3 (amended): the full-first-page fallback of `find_user_by_email` is
triggered by a non-200 status of the filtered query, whose error is then
swallowed; a lower-level request failure instead propagates with no
fallback; the fallback scan returns the first exact email match or `none`;
and the resolver only issues GET requests — it never creates a user. -/
theorem find_user_fallback_behavior :
    (∀ net email s body t usersBody t2, s ≠ 200 →
        net (filterEmailReq email) = Except.ok ⟨s, body, t⟩ →
        net (listUsersReq 1) = Except.ok ⟨200, usersBody, t2⟩ →
        find_user_by_email email net =
          (Except.ok (scanUsersForEmail (itemsOf usersBody "data") email),
            [filterEmailReq email, listUsersReq 1]))
      ∧ (∀ net email e, net (filterEmailReq email) = Except.error e →
          find_user_by_email email net =
            (Except.error (ApiError.netError e), [filterEmailReq email]))
      ∧ (∀ users email a, scanUsersForEmail users email = some a →
          optEqStr (pyGet a "email") email = true)
      ∧ (∀ users email, scanUsersForEmail users email = none →
          ∀ u ∈ users,
            optEqStr (pyGet (pyGetD u "attributes" (Json.obj [])) "email") email = false)
      ∧ (∀ net email, ∀ r ∈ (find_user_by_email email net).2, r.method = Method.get) := by
  refine ⟨?_, ?_, ?_, ?_, ?_⟩
  · intro net email s body t usersBody t2 hs hfil husers
    simp [find_user_by_email, hfil, hs, list_users, husers]
  · intro net email e herr
    simp [find_user_by_email, herr]
  · intro users email a h
    induction users with
    | nil => simp [scanUsersForEmail] at h
    | cons u rest ih =>
      rw [scanUsersForEmail] at h
      split at h
      · rename_i hmatch
        injection h with h
        subst h
        exact hmatch
      · exact ih h
  · intro users email h u hu
    induction users with
    | nil => simp at hu
    | cons v rest ih =>
      rw [scanUsersForEmail] at h
      split at h
      · exact absurd h (by simp)
      · rename_i hmatch
        rcases List.mem_cons.mp hu with rfl | hu2
        · simpa using hmatch
        · exact ih h hu2
  · intro net email r hr
    simp only [find_user_by_email] at hr
    cases h1 : net (filterEmailReq email) with
    | error e =>
      rw [h1] at hr
      simp at hr
      subst hr
      rfl
    | ok resp =>
      rw [h1] at hr
      by_cases h2 : resp.status = 200
      · simp [h2] at hr
        subst hr
        rfl
      · simp only [h2, if_false] at hr
        rcases h3 : list_users 1 net with ⟨res, tr⟩
        have htr : tr = [listUsersReq 1] := by
          have := list_users_trace 1 net
          rw [h3] at this
          exact this
        rw [h3] at hr
        cases res with
        | ok users =>
          simp [htr] at hr
          rcases hr with rfl | rfl
          · rfl
          · rfl
        | error e =>
          simp [htr] at hr
          rcases hr with rfl | rfl
          · rfl
          · rfl

/-- Witness for the amended C3 theorem: with a 500 from the filtered query,
the fallback scan finds the exact match in second position. -/
theorem find_user_fallback_witness :
    (find_user_by_email "u@v" netFilter500).1 =
      Except.ok (some (Json.obj [("username", Json.str "bob"),
                                 ("email", Json.str "u@v")])) := by
  have h := find_user_fallback_behavior.1 netFilter500 "u@v" 500 Json.null ""
    (pageOf [userEntry "alice" "x@y", userEntry "bob" "u@v"]) "" (by decide) rfl rfl
  have h1 := congrArg Prod.fst h
  rw [show (find_user_by_email "u@v" netFilter500).1 = Prod.fst (find_user_by_email "u@v" netFilter500) from rfl, h1]
  rfl

/-! ## C4 -/

theorem strContains_end (pre mid : String) :
    strContains (pre ++ mid) mid = true := by
  have h : (pre ++ mid).toList = pre.toList ++ mid.toList := by
    simp [String.toList, String.data_append]
  rw [strContains, h]
  simpa using containsList_mid pre.toList mid.toList []

theorem strContains_mid2 (pre mid s1 s2 : String) :
    strContains (pre ++ mid ++ s1 ++ s2) mid = true := by
  have h : (pre ++ mid ++ s1 ++ s2).toList =
      pre.toList ++ mid.toList ++ (s1.toList ++ s2.toList) := by
    simp [String.toList, String.data_append, List.append_assoc]
  rw [strContains, h]
  exact containsList_mid pre.toList mid.toList (s1.toList ++ s2.toList)

/-- C4 (counterexample): `list_nodes` answers a 500 with the fixed message
`Failed to list nodes`, which does not contain the status code. -/
theorem list_nodes_message_omits_status :
    (list_nodes net500).1 = Except.error (ApiError.pteroError "Failed to list nodes")
      ∧ strContains "Failed to list nodes" "500" = false := ⟨rfl, rfl⟩

/-- C4 (amended): every fetch/list/create/mutate operation raises a
`PteroError` whose message contains the status code on a status outside
its success set, except `list_nodes`, `list_eggs`, and the nest-fetch
phase of `get_egg`, which raise fixed messages without the code. -/
theorem status_code_in_errors :
    (∀ nid, failsWithStatus (get_node nid) (getNodeReq nid) [200])
      ∧ (∀ u e f l p,
          failsWithStatus (create_user u e f l p) (createUserReq u e f l p) [200, 201])
      ∧ (∀ page, failsWithStatus (list_users page) (listUsersReq page) [200])
      ∧ (∀ uid, failsWithStatus (delete_user uid) (deleteUserReq uid) [200, 204])
      ∧ (∀ uid pw,
          failsWithStatus (change_user_password uid pw) (changePasswordReq uid pw) [200, 204])
      ∧ (∀ nm uid eid ndid mem cpu dsk v,
          failsWithStatus (create_server nm uid eid ndid mem cpu dsk v)
            (createServerReq nm uid eid ndid mem cpu dsk v) [200, 201])
      ∧ (∀ sid, failsWithStatus (delete_server sid) (deleteServerReq sid) [200, 204])
      ∧ (∀ sid, failsWithStatus (suspend_server sid) (suspendReq sid) [200, 204])
      ∧ (∀ sid, failsWithStatus (unsuspend_server sid) (unsuspendReq sid) [200, 204])
      ∧ (∀ sid, failsWithStatus (get_server sid) (getServerReq sid) [200])
      ∧ (∀ page, failsWithStatus (list_servers page) (listServersReq page) [200])
      ∧ (∀ sid mem cpu dsk,
          failsWithStatus (set_server_resources sid mem cpu dsk)
            (setResourcesReq sid mem cpu dsk) [200, 204])
      ∧ (∀ sid, failsWithStatus (list_backups sid) (listBackupsReq sid) [200])
      ∧ (∀ net s body t, s ≠ 200 → net listNodesReq = Except.ok ⟨s, body, t⟩ →
          (list_nodes net).1 = Except.error (ApiError.pteroError "Failed to list nodes"))
      ∧ (∀ net s body t, s ≠ 200 → net nestsReq = Except.ok ⟨s, body, t⟩ →
          (list_eggs net).1 = Except.error (ApiError.pteroError "Failed to fetch nests/eggs"))
      ∧ (∀ egg_id net s body t, directFailsB net egg_id = true → s ≠ 200 →
          net nestsReq = Except.ok ⟨s, body, t⟩ →
          (get_egg egg_id net).1 =
            Except.error (ApiError.pteroError "Unable to fetch nests to validate egg")) := by
  refine ⟨?_, ?_, ?_, ?_, ?_, ?_, ?_, ?_, ?_, ?_, ?_, ?_, ?_, ?_, ?_, ?_⟩
  · intro nid net s body t hs hnet
    simp only [List.mem_singleton] at hs
    refine ⟨"Node " ++ toString nid ++ " not found (status " ++ toString s ++ ")", ?_, ?_⟩
    · simp [get_node, hnet, hs]
    · exact strContains_mid _ _ _
  · intro u e f l p net s body t hs hnet
    simp only [List.mem_cons, List.mem_singleton, List.not_mem_nil, or_false] at hs
    push_neg at hs
    refine ⟨"Create user failed: status " ++ toString s ++ ": " ++ t, ?_, ?_⟩
    · simp [create_user, hnet, hs.1, hs.2]
    · exact strContains_mid2 _ _ _ _
  · intro page net s body t hs hnet
    simp only [List.mem_singleton] at hs
    refine ⟨"List users failed (status " ++ toString s ++ ")", ?_, ?_⟩
    · simp [list_users, hnet, hs]
    · exact strContains_mid _ _ _
  · intro uid net s body t hs hnet
    simp only [List.mem_cons, List.mem_singleton, List.not_mem_nil, or_false] at hs
    push_neg at hs
    refine ⟨"Delete user failed: status " ++ toString s ++ ": " ++ t, ?_, ?_⟩
    · simp [delete_user, hnet, hs.1, hs.2]
    · exact strContains_mid2 _ _ _ _
  · intro uid pw net s body t hs hnet
    simp only [List.mem_cons, List.mem_singleton, List.not_mem_nil, or_false] at hs
    push_neg at hs
    refine ⟨"Change password failed: status " ++ toString s ++ ": " ++ t, ?_, ?_⟩
    · simp [change_user_password, hnet, hs.1, hs.2]
    · exact strContains_mid2 _ _ _ _
  · intro nm uid eid ndid mem cpu dsk v net s body t hs hnet
    simp only [List.mem_cons, List.mem_singleton, List.not_mem_nil, or_false] at hs
    push_neg at hs
    refine ⟨"Create server failed: status " ++ toString s ++ ": " ++ t, ?_, ?_⟩
    · simp [create_server, hnet, hs.1, hs.2]
    · exact strContains_mid2 _ _ _ _
  · intro sid net s body t hs hnet
    simp only [List.mem_cons, List.mem_singleton, List.not_mem_nil, or_false] at hs
    push_neg at hs
    refine ⟨"Delete server failed: status " ++ toString s ++ ": " ++ t, ?_, ?_⟩
    · simp [delete_server, hnet, hs.1, hs.2]
    · exact strContains_mid2 _ _ _ _
  · intro sid net s body t hs hnet
    simp only [List.mem_cons, List.mem_singleton, List.not_mem_nil, or_false] at hs
    push_neg at hs
    refine ⟨"Suspend failed: status " ++ toString s ++ ": " ++ t, ?_, ?_⟩
    · simp [suspend_server, hnet, hs.1, hs.2]
    · exact strContains_mid2 _ _ _ _
  · intro sid net s body t hs hnet
    simp only [List.mem_cons, List.mem_singleton, List.not_mem_nil, or_false] at hs
    push_neg at hs
    refine ⟨"Unsuspend failed: status " ++ toString s ++ ": " ++ t, ?_, ?_⟩
    · simp [unsuspend_server, hnet, hs.1, hs.2]
    · exact strContains_mid2 _ _ _ _
  · intro sid net s body t hs hnet
    simp only [List.mem_singleton] at hs
    refine ⟨"Get server failed: status " ++ toString s ++ ": " ++ t, ?_, ?_⟩
    · simp [get_server, hnet, hs]
    · exact strContains_mid2 _ _ _ _
  · intro page net s body t hs hnet
    simp only [List.mem_singleton] at hs
    refine ⟨"List servers failed: status " ++ toString s, ?_, ?_⟩
    · simp [list_servers, hnet, hs]
    · exact strContains_end _ _
  · intro sid mem cpu dsk net s body t hs hnet
    simp only [List.mem_cons, List.mem_singleton, List.not_mem_nil, or_false] at hs
    push_neg at hs
    refine ⟨"Set resources failed: status " ++ toString s ++ ": " ++ t, ?_, ?_⟩
    · simp [set_server_resources, hnet, hs.1, hs.2]
    · exact strContains_mid2 _ _ _ _
  · intro sid net s body t hs hnet
    simp only [List.mem_singleton] at hs
    refine ⟨"List backups failed: status " ++ toString s, ?_, ?_⟩
    · simp [list_backups, hnet, hs]
    · exact strContains_end _ _
  · intro net s body t hs hnet
    simp [list_nodes, hnet, hs]
  · intro net s body t hs hnet
    simp [list_eggs, hnet, hs]
  · intro egg_id net s body t hdf hs hnests
    simp only [get_egg]
    cases h1 : net (directEggReq egg_id) with
    | error e => simp [h1, hnests, hs]
    | ok r =>
      have hr : r.status ≠ 200 := by
        simp only [directFailsB, h1] at hdf
        simpa using hdf
      simp [h1, hr, hnests, hs]

/-- Witness for the amended C4 theorem: concrete 500 answers produce
messages that do contain `500`. -/
theorem status_code_in_errors_witness :
    (∃ msg, (get_node 3 net500).1 = Except.error (ApiError.pteroError msg)
        ∧ strContains msg (toString (500 : Nat)) = true)
      ∧ (∃ msg, (delete_user 4 net500).1 = Except.error (ApiError.pteroError msg)
        ∧ strContains msg (toString (500 : Nat)) = true)
      ∧ (∃ msg, (list_servers 1 net500).1 = Except.error (ApiError.pteroError msg)
        ∧ strContains msg (toString (500 : Nat)) = true) := by
  refine ⟨?_, ?_, ?_⟩
  · exact status_code_in_errors.1 3 net500 500 (Json.obj []) "oops" (by decide) rfl
  · exact status_code_in_errors.2.2.2.1 4 net500 500 (Json.obj []) "oops" (by decide) rfl
  · exact status_code_in_errors.2.2.2.2.2.2.2.2.2.2.1 1 net500 500 (Json.obj []) "oops"
      (by decide) rfl

/-! ## C6 -/

/-- C6: client-side search fetches only the first page of the collection
(the trace is exactly the one page-1 request, so entries beyond page one
can never be returned) and keeps exactly the entries whose name or
identifier (servers), or username or email (users), contain the query as a
case-insensitive substring; concretely, searching `SuRv` over a page with
`Survival` and `Creative` returns exactly the `Survival` record. -/
theorem client_side_search_first_page :
    (∀ net query pageBody t,
        net (listServersReq 1) = Except.ok ⟨200, pageBody, t⟩ →
        search_servers query net =
          (Except.ok (((itemsOf pageBody "data").filter (serverMatch query)).map
              (fun item => pyGetD item "attributes" (Json.obj []))),
            [listServersReq 1]))
      ∧ (∀ net query pageBody t,
          net (listUsersReq 1) = Except.ok ⟨200, pageBody, t⟩ →
          search_users query net =
            (Except.ok (((itemsOf pageBody "data").filter (userMatch query)).map
                (fun u => pyGetD u "attributes" (Json.obj []))),
              [listUsersReq 1]))
      ∧ (∀ query item,
          serverMatch query item =
            (strContains (strLower (getStrD (pyGetD item "attributes" (Json.obj [])) "name"))
                (strLower query)
              || strContains (strLower (getStrD (pyGetD item "attributes" (Json.obj []))
                  "identifier")) (strLower query)))
      ∧ (search_servers "SuRv" netSearchSrv).1 =
          Except.ok [Json.obj [("name", Json.str "Survival"),
                               ("identifier", Json.str "abc1")]]
      ∧ (search_users "SURV" netSearchUsr).1 =
          Except.ok [Json.obj [("username", Json.str "SurvivalFan"),
                               ("email", Json.str "fan@x")]] := by
  refine ⟨?_, ?_, ?_, ?_, ?_⟩
  · intro net query pageBody t hnet
    simp [search_servers, list_servers, hnet]
  · intro net query pageBody t hnet
    simp [search_users, list_users, hnet]
  · intro query item
    rfl
  · rfl
  · rfl

/-- Witness for C6 at the concrete page: lower-case query, same result,
and the trace is exactly the page-1 request. -/
theorem client_side_search_witness :
    search_servers "surv" netSearchSrv =
      (Except.ok [Json.obj [("name", Json.str "Survival"),
                            ("identifier", Json.str "abc1")]],
        [listServersReq 1]) := by
  have h := client_side_search_first_page.1 netSearchSrv "surv"
    (pageOf [srvEntry "Survival" "abc1", srvEntry "Creative" "abc2"]) "" rfl
  rw [h]
  rfl

/-! ## C2 -/

theorem itemsOf_pageOf (l : List Json) : itemsOf (pageOf l) "data" = l := rfl

theorem scanEggs_none {egg_id : Int} :
    ∀ {eggs : List Json}, (∀ e ∈ eggs, eggMatches e egg_id = false) →
      scanEggs eggs egg_id = none := by
  intro eggs
  induction eggs with
  | nil => intro _; rfl
  | cons e rest ih =>
    intro h
    have he : eggMatches e egg_id = false := h e (List.mem_cons_self e rest)
    simp only [scanEggs, he]
    simp only [Bool.false_eq_true, if_false]
    exact ih (fun x hx => h x (List.mem_cons_of_mem e hx))

theorem scanEggs_first {egg_id : Int} :
    ∀ (es1 : List Json) (em : Json) (es2 : List Json),
      (∀ e ∈ es1, eggMatches e egg_id = false) → eggMatches em egg_id = true →
      scanEggs (es1 ++ em :: es2) egg_id = some (pyGetD em "attributes" em) := by
  intro es1
  induction es1 with
  | nil =>
    intro em es2 _ hm
    simp only [List.nil_append, scanEggs, hm]
    simp
  | cons e rest ih =>
    intro em es2 h hm
    have he := h e (List.mem_cons_self e rest)
    simp only [List.cons_append, scanEggs, he]
    simp only [Bool.false_eq_true, if_false]
    exact ih em es2 (fun x hx => h x (List.mem_cons_of_mem e hx)) hm

theorem scanNests_all_miss {net : Net} {E : Json → List Json} {egg_id : Int} :
    ∀ (ns : List Json),
      (∀ n ∈ ns, nestServed net E n) →
      (∀ n ∈ ns, ∀ e ∈ E n, eggMatches e egg_id = false) →
      scanNests egg_id ns net =
        (Except.ok none, ns.map (fun n => eggsOfNestReq (nestId n))) := by
  intro ns
  induction ns with
  | nil => intro _ _; rfl
  | cons n rest ih =>
    intro hserved hmiss
    obtain ⟨ht, hnet⟩ := hserved n (List.mem_cons_self n rest)
    have hm : scanEggs (E n) egg_id = none :=
      scanEggs_none (hmiss n (List.mem_cons_self n rest))
    have ih2 := ih (fun x hx => hserved x (List.mem_cons_of_mem n hx))
      (fun x hx => hmiss x (List.mem_cons_of_mem n hx))
    simp only [scanNests, ht, hnet]
    simp [itemsOf_pageOf, hm, ih2]

theorem scanNests_found {net : Net} {E : Json → List Json} {egg_id : Int} {v : Json} :
    ∀ (ns1 : List Json) (nm : Json) (ns2 : List Json),
      (∀ n ∈ ns1 ++ [nm], nestServed net E n) →
      (∀ n ∈ ns1, ∀ e ∈ E n, eggMatches e egg_id = false) →
      scanEggs (E nm) egg_id = some v →
      scanNests egg_id (ns1 ++ nm :: ns2) net =
        (Except.ok (some v), (ns1 ++ [nm]).map (fun n => eggsOfNestReq (nestId n))) := by
  intro ns1
  induction ns1 with
  | nil =>
    intro nm ns2 hserved _ hscan
    obtain ⟨ht, hnet⟩ := hserved nm (by simp)
    simp only [List.nil_append, scanNests, ht, hnet]
    simp [itemsOf_pageOf, hscan]
  | cons n rest ih =>
    intro nm ns2 hserved hmiss hscan
    obtain ⟨ht, hnet⟩ := hserved n (List.mem_cons_self n _)
    have hm : scanEggs (E n) egg_id = none :=
      scanEggs_none (hmiss n (List.mem_cons_self n rest))
    have ih2 := ih nm ns2
      (fun x hx => hserved x (List.mem_cons_of_mem n hx))
      (fun x hx => hmiss x (List.mem_cons_of_mem n hx)) hscan
    simp only [List.cons_append, scanNests, ht, hnet]
    simp [itemsOf_pageOf, hm, ih2]

/-- C2: egg resolution tries the direct flat path first and, on a 200,
returns the normalized record having issued only that one request; on a
direct-path failure (non-200 or a swallowed request error) it lists the
nests and then their eggs nest by nest, returning the first egg whose id
matches and stopping there, and raises `Egg <id> not found` after
exhausting all nests without a match. -/
theorem get_egg_resolution :
    (∀ net egg_id body t,
        net (directEggReq egg_id) = Except.ok ⟨200, body, t⟩ →
        get_egg egg_id net = (Except.ok (normalizeAttrs body), [directEggReq egg_id]))
      ∧ (∀ net egg_id (E : Json → List Json) nbody t ns1 nm ns2 es1 em es2,
          directFailsB net egg_id = true →
          net nestsReq = Except.ok ⟨200, nbody, t⟩ →
          itemsOf nbody "data" = ns1 ++ nm :: ns2 →
          (∀ n ∈ ns1 ++ [nm], nestServed net E n) →
          (∀ n ∈ ns1, ∀ e ∈ E n, eggMatches e egg_id = false) →
          E nm = es1 ++ em :: es2 →
          (∀ e ∈ es1, eggMatches e egg_id = false) →
          eggMatches em egg_id = true →
          get_egg egg_id net =
            (Except.ok (pyGetD em "attributes" em),
              directEggReq egg_id :: nestsReq ::
                (ns1 ++ [nm]).map (fun n => eggsOfNestReq (nestId n))))
      ∧ (∀ net egg_id (E : Json → List Json) nbody t ns,
          directFailsB net egg_id = true →
          net nestsReq = Except.ok ⟨200, nbody, t⟩ →
          itemsOf nbody "data" = ns →
          (∀ n ∈ ns, nestServed net E n) →
          (∀ n ∈ ns, ∀ e ∈ E n, eggMatches e egg_id = false) →
          get_egg egg_id net =
            (Except.error (ApiError.pteroError ("Egg " ++ toString egg_id ++ " not found")),
              directEggReq egg_id :: nestsReq ::
                ns.map (fun n => eggsOfNestReq (nestId n)))) := by
  refine ⟨?_, ?_, ?_⟩
  · intro net egg_id body t hnet
    simp [get_egg, hnet]
  · intro net egg_id E nbody t ns1 nm ns2 es1 em es2 hdf hnests hdata hserved hmiss hEnm hes1 hem
    have h5 : scanEggs (E nm) egg_id = some (pyGetD em "attributes" em) := by
      rw [hEnm]
      exact scanEggs_first es1 em es2 hes1 hem
    have hscan := scanNests_found ns1 nm ns2 hserved hmiss h5
    cases h1 : net (directEggReq egg_id) with
    | error e =>
      simp [get_egg, h1, hnests, hdata, hscan]
    | ok r =>
      have hr : r.status ≠ 200 := by
        simp only [directFailsB, h1] at hdf
        simpa using hdf
      simp [get_egg, h1, hr, hnests, hdata, hscan]
  · intro net egg_id E nbody t ns hdf hnests hdata hserved hmiss
    have hscan := scanNests_all_miss ns hserved hmiss
    cases h1 : net (directEggReq egg_id) with
    | error e =>
      simp [get_egg, h1, hnests, hdata, hscan]
    | ok r =>
      have hr : r.status ≠ 200 := by
        simp only [directFailsB, h1] at hdf
        simpa using hdf
      simp [get_egg, h1, hr, hnests, hdata, hscan]

/-- Witness for C2: over `netEggScan` the direct path 404s, the scan visits
nest 1 (miss) then nest 2 (hit on egg 5) and stops; over `netEggDirect` the
direct path hits and only one request is issued. -/
theorem get_egg_resolution_witness :
    get_egg 5 netEggScan =
        (Except.ok (Json.obj [("id", Json.num 5)]),
          [directEggReq 5, nestsReq, eggsOfNestReq (some (Json.num 1)),
           eggsOfNestReq (some (Json.num 2))])
      ∧ get_egg 5 netEggDirect =
          (Except.ok (Json.obj [("id", Json.num 5)]), [directEggReq 5]) := by
  constructor
  · have hserved : ∀ n ∈ [nestEntry 1] ++ [nestEntry 2], nestServed netEggScan eggListsOf n := by
      intro n hn
      simp only [List.cons_append, List.nil_append, List.mem_cons,
        List.not_mem_nil, or_false] at hn
      rcases hn with rfl | rfl
      · exact ⟨rfl, rfl⟩
      · exact ⟨rfl, rfl⟩
    have hmiss : ∀ n ∈ [nestEntry 1], ∀ e ∈ eggListsOf n, eggMatches e 5 = false := by
      intro n hn e he
      simp only [List.mem_singleton] at hn
      subst hn
      simp only [show eggListsOf (nestEntry 1) = [eggEntry 9] from rfl,
        List.mem_singleton] at he
      subst he
      rfl
    have h := get_egg_resolution.2.1 netEggScan 5 eggListsOf
      (pageOf [nestEntry 1, nestEntry 2]) "" [nestEntry 1] (nestEntry 2) []
      [] (eggEntry 5) [] rfl rfl rfl hserved hmiss rfl
      (fun e he => absurd he (List.not_mem_nil e)) rfl
    rw [h]
    rfl
  · have h := get_egg_resolution.1 netEggDirect 5
      (Json.obj [("attributes", Json.obj [("id", Json.num 5)])]) "" rfl
    rw [h]
    rfl

/-! ## C8 -/

theorem b64val_b64urlChar : ∀ n, n < 64 → b64val (b64urlChar n) = n := by
  decide

theorem b64urlChar_urlsafe (n : Nat) : isUrlSafeChar (b64urlChar n) = true := by
  by_cases h : n < 64
  · revert h
    revert n
    decide
  · rw [b64urlChar, if_neg (by omega), if_neg (by omega), if_neg (by omega),
      if_neg (by omega)]
    rfl

theorem mem_b64encode_urlsafe (bs : List Nat) :
    ∀ c ∈ b64encode bs, isUrlSafeChar c = true := by
  induction bs using b64encode.induct with
  | case1 =>
    intro c hc
    simp [b64encode] at hc
  | case2 b0 =>
    intro c hc
    simp only [b64encode, List.mem_cons, List.not_mem_nil, or_false] at hc
    rcases hc with rfl | rfl <;> exact b64urlChar_urlsafe _
  | case3 b0 b1 =>
    intro c hc
    simp only [b64encode, List.mem_cons, List.not_mem_nil, or_false] at hc
    rcases hc with rfl | rfl | rfl <;> exact b64urlChar_urlsafe _
  | case4 b0 b1 b2 rest ih =>
    intro c hc
    simp only [b64encode, List.mem_cons] at hc
    rcases hc with rfl | rfl | rfl | rfl | hc
    · exact b64urlChar_urlsafe _
    · exact b64urlChar_urlsafe _
    · exact b64urlChar_urlsafe _
    · exact b64urlChar_urlsafe _
    · exact ih c hc

theorem b64encode_length_ge : ∀ bs : List Nat, bs.length ≤ (b64encode bs).length := by
  intro bs
  induction bs using b64encode.induct with
  | case1 => simp [b64encode]
  | case2 b0 => simp [b64encode]
  | case3 b0 b1 => simp [b64encode]
  | case4 b0 b1 b2 rest ih =>
    simp [b64encode]
    omega

theorem b64encode_append : ∀ (n : Nat) (t rest : List Nat), t.length = 3 * n →
    b64encode (t ++ rest) = b64encode t ++ b64encode rest := by
  intro n
  induction n with
  | zero =>
    intro t rest ht
    have h0 : t = [] := List.eq_nil_of_length_eq_zero (by omega)
    subst h0
    simp [b64encode]
  | succ k ih =>
    intro t rest ht
    rcases t with _ | ⟨a, _ | ⟨b, _ | ⟨c, t2⟩⟩⟩
    · simp at ht
    · simp at ht
      omega
    · simp at ht
      omega
    · have ht2 : t2.length = 3 * k := by
        simp at ht
        omega
      simp only [List.cons_append, b64encode]
      rw [show t2.append rest = t2 ++ rest from rfl, ih t2 rest ht2]

theorem b64encode_length_mul3 : ∀ (n : Nat) (t : List Nat), t.length = 3 * n →
    (b64encode t).length = 4 * n := by
  intro n
  induction n with
  | zero =>
    intro t ht
    have h0 : t = [] := List.eq_nil_of_length_eq_zero (by omega)
    subst h0
    rfl
  | succ k ih =>
    intro t ht
    rcases t with _ | ⟨a, _ | ⟨b, _ | ⟨c, t2⟩⟩⟩
    · simp at ht
    · simp at ht
      omega
    · simp at ht
      omega
    · have ht2 : t2.length = 3 * k := by
        simp at ht
        omega
      simp only [b64encode, List.length_cons]
      rw [ih t2 ht2]
      omega

theorem b64urlChar_inj {m n : Nat} (hm : m < 64) (hn : n < 64)
    (h : b64urlChar m = b64urlChar n) : m = n := by
  have h2 := congrArg b64val h
  rwa [b64val_b64urlChar m hm, b64val_b64urlChar n hn] at h2

theorem encode3_inj {a b c a2 b2 c2 : Nat} (ha : a < 256) (hb : b < 256) (hc : c < 256)
    (ha2 : a2 < 256) (hb2 : b2 < 256) (hc2 : c2 < 256)
    (h0 : b64urlChar (a / 4) = b64urlChar (a2 / 4))
    (h1 : b64urlChar (a % 4 * 16 + b / 16) = b64urlChar (a2 % 4 * 16 + b2 / 16))
    (h2 : b64urlChar (b % 16 * 4 + c / 64) = b64urlChar (b2 % 16 * 4 + c2 / 64))
    (h3 : b64urlChar (c % 64) = b64urlChar (c2 % 64)) :
    a = a2 ∧ b = b2 ∧ c = c2 := by
  have e0 := b64urlChar_inj (by omega) (by omega) h0
  have e1 := b64urlChar_inj (by omega) (by omega) h1
  have e2 := b64urlChar_inj (by omega) (by omega) h2
  have e3 := b64urlChar_inj (by omega) (by omega) h3
  refine ⟨?_, ?_, ?_⟩ <;> omega

theorem b64encode_inj_mul3 : ∀ (n : Nat) (t s : List Nat),
    t.length = 3 * n → s.length = 3 * n →
    (∀ x ∈ t, x < 256) → (∀ x ∈ s, x < 256) →
    b64encode t = b64encode s → t = s := by
  intro n
  induction n with
  | zero =>
    intro t s ht hs _ _ _
    have h0 : t = [] := List.eq_nil_of_length_eq_zero (by omega)
    have h1 : s = [] := List.eq_nil_of_length_eq_zero (by omega)
    rw [h0, h1]
  | succ k ih =>
    intro t s ht hs hbt hbs henc
    rcases t with _ | ⟨a, _ | ⟨b, _ | ⟨c, t2⟩⟩⟩
    · simp at ht
    · simp at ht
      omega
    · simp at ht
      omega
    · rcases s with _ | ⟨a2, _ | ⟨b2, _ | ⟨c2, s2⟩⟩⟩
      · simp at hs
      · simp at hs
        omega
      · simp at hs
        omega
      · simp only [b64encode] at henc
        injection henc with h0 henc
        injection henc with h1 henc
        injection henc with h2 henc
        injection henc with h3 henc
        have hb3 := encode3_inj
          (hbt a (by simp)) (hbt b (by simp)) (hbt c (by simp))
          (hbs a2 (by simp)) (hbs b2 (by simp)) (hbs c2 (by simp))
          h0 h1 h2 h3
        have ht2 : t2.length = 3 * k := by
          simp at ht
          omega
        have hs2 : s2.length = 3 * k := by
          simp at hs
          omega
        have hrest := ih t2 s2 ht2 hs2
          (fun x hx => hbt x (by simp [hx]))
          (fun x hx => hbs x (by simp [hx])) henc
        rw [hb3.1, hb3.2.1, hb3.2.2, hrest]

/-- C8: for a 16-byte CSPRNG draw (the bytes `secrets.token_urlsafe(16)`
pulls from the OS random source), the generated password has exactly 16
characters, all from the URL-safe base64 alphabet; and two draws whose
first 12 bytes differ yield different passwords, so two successive
invocations collide only when the CSPRNG repeats 96 bits of entropy. -/
theorem generate_password_spec :
    ∀ entropy : List Nat, entropy.length = 16 → (∀ x ∈ entropy, x < 256) →
      (generate_password entropy 16).length = 16
        ∧ (∀ c ∈ (generate_password entropy 16).toList, isUrlSafeChar c = true)
        ∧ ∀ entropy2 : List Nat, entropy2.length = 16 → (∀ x ∈ entropy2, x < 256) →
            entropy.take 12 ≠ entropy2.take 12 →
            generate_password entropy 16 ≠ generate_password entropy2 16 := by
  have hdata : ∀ e : List Nat, generate_password e 16 = String.mk ((b64encode e).take 16) :=
    fun e => rfl
  have htake16 : ∀ e : List Nat, e.length = 16 →
      (b64encode e).take 16 = b64encode (e.take 12) := by
    intro e he
    have hsplit : e.take 12 ++ e.drop 12 = e := List.take_append_drop 12 e
    have hlen12 : (e.take 12).length = 12 := by
      rw [List.length_take]
      omega
    have henc : b64encode e = b64encode (e.take 12) ++ b64encode (e.drop 12) := by
      conv_lhs => rw [← hsplit]
      exact b64encode_append 4 (e.take 12) (e.drop 12) (by omega)
    have hlen16 : (b64encode (e.take 12)).length = 16 :=
      b64encode_length_mul3 4 (e.take 12) (by omega)
    rw [henc, ← hlen16, List.take_left]
  intro entropy hlen hbounds
  refine ⟨?_, ?_, ?_⟩
  · rw [hdata]
    show ((b64encode entropy).take 16).length = 16
    rw [List.length_take]
    have := b64encode_length_ge entropy
    omega
  · intro c hc
    rw [hdata] at hc
    have hc2 : c ∈ (b64encode entropy).take 16 := hc
    exact mem_b64encode_urlsafe entropy c (List.take_subset 16 _ hc2)
  · intro entropy2 hlen2 hbounds2 hne heq
    rw [hdata, hdata] at heq
    have hl : (b64encode entropy).take 16 = (b64encode entropy2).take 16 :=
      congrArg String.data heq
    rw [htake16 entropy hlen, htake16 entropy2 hlen2] at hl
    exact hne (b64encode_inj_mul3 4 _ _
      (by rw [List.length_take]; omega) (by rw [List.length_take]; omega)
      (fun x hx => hbounds x (List.take_subset 12 entropy hx))
      (fun x hx => hbounds2 x (List.take_subset 12 entropy2 hx)) hl)

/-- Witness for C8 at two concrete entropy draws differing in the first
byte. -/
theorem generate_password_spec_witness :
    (generate_password (List.replicate 16 0) 16).length = 16
      ∧ generate_password (List.replicate 16 0) 16 ≠
          generate_password (1 :: List.replicate 15 0) 16 := by
  have h1 := generate_password_spec (List.replicate 16 0) (by decide) (by decide)
  exact ⟨h1.1, h1.2.2 (1 :: List.replicate 15 0) (by decide) (by decide) (by decide)⟩

end Ptero

